import Mathlib

/-!
Verification of the Alif SE-UART ISP protocol implementation
(`alif_flash/isp.py`): packet framing with checksum, response decoding,
segmented MRAM image writing with USB-drop recovery, and the
maintenance-mode entry flow.

Bytes are modelled as `Nat` (with explicit `< 256` bounds where the Python
`bytes` type enforces them), byte strings as `List Nat`, and the serial
line as the list of bytes the device makes available to one read
(an exhausted list models a read timeout).
-/

namespace AlifIsp

/-! ## Protocol constants (`isp.py` lines 22-35) -/

def BAUD_RATE : Nat := 57600
def DATA_PER_CHUNK : Nat := 240
def CMD_START_ISP : Nat := 0x00
def CMD_STOP_ISP : Nat := 0x01
def CMD_DOWNLOAD_DATA : Nat := 0x04
def CMD_DOWNLOAD_DONE : Nat := 0x05
def CMD_BURN_MRAM : Nat := 0x08
def CMD_RESET_DEVICE : Nat := 0x09
def CMD_ENQUIRY : Nat := 0x0F
def CMD_SET_MAINTENANCE : Nat := 0x16
def CMD_ACK : Nat := 0xFE
def CMD_DATA_RESP : Nat := 0xFD

/-- Maximum bytes per BURN_MRAM session (`isp.py` line 388). -/
def MAX_SEGMENT_SIZE : Nat := 256 * 1024

/-! ## Codec (`calc_checksum`, `make_packet`, `read_response`) -/

/-- Embedding of `calc_checksum` (`isp.py` lines 38-40):
`(0 - sum(data)) & 0xFF`.  Python's `& 0xFF` on a possibly negative
integer is the mathematical residue mod 256, i.e. `Int.emod`. -/
def calc_checksum (data : List Nat) : Nat :=
  ((0 - (data.sum : Int)) % 256).toNat

/-- Embedding of `make_packet` (`isp.py` lines 43-49).
`bytes([x])` raises `ValueError` for `x` outside `0..255`, so the
result is an `Option`: `none` models the raising paths
(`cmd` not a byte, or the computed length byte out of range). -/
def make_packet (cmd : Nat) (data : List Nat) : Option (List Nat) :=
  if cmd < 256 then
    let payload := cmd :: data
    let length := payload.length + 2
    if length < 256 then
      let pkt := length :: payload
      some (pkt ++ [calc_checksum pkt])
    else none
  else none

/-- Embedding of `read_response` (`isp.py` lines 52-78) on the byte
stream the device yields before the timeout.  `ser.read(n)` returns up to
`n` bytes (fewer if the stream runs dry), which is `List.take`.
Python `rest[0]` is the head, `rest[1:-1]` is `tail.dropLast`, and the
`len(rest) > 2` guard is `tail.length + 1 > 2`. -/
def read_response (input : List Nat) : Option Nat × List Nat :=
  match input with
  | [] => (none, [])
  | length :: more =>
    if length < 2 then (none, [])
    else
      match more.take (length - 1) with
      | [] => (none, [])
      | cmd :: tail =>
        (some cmd, if tail.length + 1 > 2 then tail.dropLast else [])

/-! ## Little-endian packing (`struct.pack`) -/

/-- `struct.pack('<H', n)`: two little-endian bytes.  Callers keep
`n < 65536` (chunk indices are at most `262144 / 240 = 1092`). -/
def packLE16 (n : Nat) : List Nat := [n % 256, n / 256 % 256]

/-- `struct.pack('<I', n)`: four little-endian bytes (addresses and
sizes, below `2^32`). -/
def packLE32 (n : Nat) : List Nat :=
  [n % 256, n / 256 % 256, n / 65536 % 256, n / 16777216 % 256]

/-! ## Segmented image writer (`_write_segment`, `write_image`)

The device side of each request/response exchange is scripted by an
environment: for every exchange, the byte stream the device yields
before the read timeout (an empty stream models no response at all).
-/

/-- One host-to-device command at the `make_packet cmd data` call level. -/
structure SentCmd where
  cmd : Nat
  data : List Nat
deriving DecidableEq

/-- The result dict of `_write_segment` (`isp.py` lines 341-383):
`success`, the `usb_drop` flag (absent key modelled as `false`), and the
`chunks_written` / `bytes_written` counters of the failure dict (on
success `chunks_written` holds the `chunks` total). -/
structure SegResult where
  success : Bool
  usb_drop : Bool
  chunks_written : Nat
  bytes_written : Nat
deriving DecidableEq

/-- The chunk-streaming while-loop of `_write_segment` (`isp.py` lines
358-381).  `responses chunk_num` is the byte stream the device answers
with to that chunk's DOWNLOAD_DATA packet.  A response that decodes to
neither ACK (0xFE) nor DATA_RESP (0xFD) aborts with
`usb_drop := resp_cmd is None` (line 371).  Returns the result together
with the commands written inside the loop (plus DOWNLOAD_DONE on
success, line 382). -/
def chunk_loop (responses : Nat → List Nat) (remaining : List Nat)
    (offset chunk_num : Nat) : SegResult × List SentCmd :=
  match remaining with
  | [] => (⟨true, false, chunk_num, offset⟩, [⟨CMD_DOWNLOAD_DONE, []⟩])
  | b :: tl =>
    let chunk := (b :: tl).take DATA_PER_CHUNK
    let sent : SentCmd := ⟨CMD_DOWNLOAD_DATA, packLE16 chunk_num ++ chunk⟩
    let resp := (read_response (responses chunk_num)).1
    if resp = some CMD_ACK ∨ resp = some CMD_DATA_RESP then
      let next := chunk_loop responses ((b :: tl).drop DATA_PER_CHUNK)
        (offset + chunk.length) (chunk_num + 1)
      (next.1, sent :: next.2)
    else
      (⟨false, resp.isNone, chunk_num, offset⟩, [sent])
  termination_by remaining.length
  decreasing_by
    simp only [List.length_drop, List.length_cons, DATA_PER_CHUNK]
    omega

/-- Embedding of `_write_segment` (`isp.py` lines 341-383): send
BURN_MRAM with `<II`-packed address and size; a response other than
ACK/DATA_RESP rejects the whole segment (its failure dict carries no
`usb_drop` key, hence `usb_drop = false`); otherwise stream the chunks. -/
def write_segment (burn_resp : List Nat) (responses : Nat → List Nat)
    (data : List Nat) (addr : Nat) : SegResult × List SentCmd :=
  let burn : SentCmd := ⟨CMD_BURN_MRAM, packLE32 addr ++ packLE32 data.length⟩
  let resp := (read_response burn_resp).1
  if resp = some CMD_ACK ∨ resp = some CMD_DATA_RESP then
    let next := chunk_loop responses data 0 0
    (next.1, burn :: next.2)
  else
    (⟨false, false, 0, 0⟩, [burn])

/-- Scripted device behavior for one `_write_segment` attempt inside
`write_image`, together with the outcome of the reconnect path that is
taken when that attempt ends in a USB drop: whether
`open_serial(port, retries=5)` succeeds (else it raises) and whether the
subsequent `start_isp` succeeds. -/
structure AttemptEnv where
  burn_resp : List Nat
  chunk_resps : Nat → List Nat
  reconnect_open_ok : Bool
  reconnect_start_ok : Bool

/-- How one `write_image` call ends. -/
inductive ImageStatus where
  | ok
  | startFailed
  | reconnectFailed
  | protocolRejected
  | raised
  | envExhausted
deriving DecidableEq

/-- One `_write_segment` attempt as observed from outside: the segment
offset it started at, its result, and the commands it wrote. -/
structure Attempt where
  seg_offset : Nat
  res : SegResult
  cmds : List SentCmd

/-- Result of `write_image`: final status, the `total_chunks` counter,
and the sequence of segment attempts that were made. -/
structure ImageResult where
  status : ImageStatus
  total_chunks : Nat
  attempts : List Attempt

/-- The segment/retry while-loop of `write_image` (`isp.py` lines
416-442).  Each iteration consumes one `AttemptEnv`.  On success the
offset advances; on a USB drop with a working reconnect the very same
`seg_offset` is retried (`continue`, line 437); a failed reconnect-open
raises (modelled `raised`), a failed post-reconnect `start_isp` returns
the "Failed to reconnect after USB drop" failure (line 434); any
non-USB-drop failure returns immediately with no retry (line 438).  When
the script `env` runs out while `seg_offset < size`, the status is
`envExhausted`: the real loop would keep running against further device
behavior. -/
def image_loop (data : List Nat) (addr : Nat) (env : List AttemptEnv)
    (seg_offset total_chunks : Nat) : ImageResult :=
  if seg_offset < data.length then
    match env with
    | [] => ⟨.envExhausted, total_chunks, []⟩
    | a :: rest =>
      let seg_data := (data.drop seg_offset).take MAX_SEGMENT_SIZE
      let r := write_segment a.burn_resp a.chunk_resps seg_data
        (addr + seg_offset)
      let att : Attempt := ⟨seg_offset, r.1, r.2⟩
      if r.1.success then
        let out := image_loop data addr rest (seg_offset + seg_data.length)
          (total_chunks + r.1.chunks_written)
        ⟨out.status, out.total_chunks, att :: out.attempts⟩
      else if r.1.usb_drop then
        if !a.reconnect_open_ok then ⟨.raised, total_chunks, [att]⟩
        else if !a.reconnect_start_ok then
          ⟨.reconnectFailed, total_chunks, [att]⟩
        else
          let out := image_loop data addr rest seg_offset total_chunks
          ⟨out.status, out.total_chunks, att :: out.attempts⟩
      else ⟨.protocolRejected, total_chunks, [att]⟩
  else ⟨.ok, total_chunks, []⟩

/-- The 16-byte zero padding `write_image` applies before segmenting
(`isp.py` lines 396-397). -/
def pad16 (data : List Nat) : List Nat :=
  data ++ List.replicate ((16 - data.length % 16) % 16) 0

/-- `num_segments` (`isp.py` line 407): ceiling division of the padded
size by the 256 KiB segment cap. -/
def num_segments (size : Nat) : Nat :=
  (size + MAX_SEGMENT_SIZE - 1) / MAX_SEGMENT_SIZE

/-- Scripted environment for one `write_image` call: whether the initial
`open_serial` succeeds (else it raises), whether the initial `start_isp`
succeeds (else the call returns "START_ISP failed" after closing), and
the device behavior for the successive segment attempts. -/
structure WriteImageEnv where
  open_ok : Bool
  start_ok : Bool
  attempts : List AttemptEnv

/-- Embedding of `write_image` (`isp.py` lines 391-464): pad the image
to a 16-byte multiple, open the port, start ISP, then run the segment
loop from offset 0. -/
def write_image (env : WriteImageEnv) (data : List Nat) (addr : Nat) :
    ImageResult :=
  if !env.open_ok then ⟨.raised, 0, []⟩
  else if !env.start_ok then ⟨.startFailed, 0, []⟩
  else image_loop (pad16 data) addr env.attempts 0 0

/-- The segment slices of the `write_image` loop as a pure partition:
each iteration takes `seg_data = data[seg_offset : seg_offset +
MAX_SEGMENT_SIZE]` and advances `seg_offset` by `len(seg_data)`
(`isp.py` lines 416-417 and 441).  Returns `(seg_offset, seg_data)`
pairs. -/
def segments_from (d : List Nat) (offset : Nat) : List (Nat × List Nat) :=
  if h : d = [] then []
  else
    (offset, d.take MAX_SEGMENT_SIZE) ::
      segments_from (d.drop MAX_SEGMENT_SIZE)
        (offset + (d.take MAX_SEGMENT_SIZE).length)
  termination_by d.length
  decreasing_by
    simp only [List.length_drop, MAX_SEGMENT_SIZE]
    have := List.length_pos.mpr h
    omega

/-- The bounded retry loops of `open_serial` (`isp.py` lines 185-204)
and `start_isp` (lines 207-225): `for attempt in range(retries)` with an
early return on success.  `outcomes` scripts whether each successive
attempt succeeds; returns the final success flag and the number of
attempts actually made. -/
def bounded_retry : List Bool → Nat → Bool × Nat
  | _, 0 => (false, 0)
  | outs, n + 1 =>
    if outs.headD false then (true, 1)
    else
      let next := bounded_retry outs.tail n
      (next.1, next.2 + 1)

/-! ## Maintenance-mode entry (`enter_maintenance`)

`enter_maintenance` (`isp.py` lines 251-338) opens the port inside a
`try` whose only handler is `except Exception: ser.close(); raise` — a
plain `return` does not trigger it, so whether the port is still open
when a result dict is returned depends on the explicit `ser.close()`
calls on that path.  `port_open` records that state at exit;
`raised` records the paths that propagate an exception instead of
returning a dict. -/

/-- Scripted environment for one `enter_maintenance` call: outcome of
the optional JLink reset / replug wait, of the two `open_serial` calls
(phase 1 and post-reset), of the two `start_isp` calls, and the ENQUIRY
exchange result (`ok` flag and response payload). -/
structure MaintEnv where
  jlink_ok : Bool
  replug_ok : Bool
  open1_ok : Bool
  start1_ok : Bool
  open2_ok : Bool
  start2_ok : Bool
  enq_ok : Bool
  enq_data : List Nat

/-- Result of `enter_maintenance` as observed by the caller, plus the
transport state: `has_message` is whether the dict carries a "message"
key, `raised` whether an exception propagated, `port_open` whether the
physical serial port is still open after the call. -/
structure MaintResult where
  success : Bool
  maintenance_mode : Bool
  has_message : Bool
  raised : Bool
  port_open : Bool
deriving DecidableEq

/-- Embedding of `enter_maintenance` (`isp.py` lines 251-338).
Branches, in source order:
1. line 265: JLink reset failed — nothing opened yet;
2. line 274: replug wait timed out — nothing opened yet;
3. line 283: `open_serial` raises — it closes its own port on failure;
4. line 287: phase-1 `start_isp` fails — returns the failure dict from
   inside the `try` with no `ser.close()`, so the port STAYS OPEN;
5. line 310: post-reset `open_serial` raises — the phase-1 port was
   already closed at line 303, the `except` re-raises;
6. line 315: post-reset `start_isp` fails — again returns a failure dict
   with no `ser.close()`, the reopened port stays open;
7. line 324: ENQUIRY ok with ≥ 10 bytes and truthy byte 9 — confirmed,
   closes, no "message" key;
8. line 330: otherwise — still `success=True` with `maintenance_mode=False`
   and an explanatory "message", closes. -/
def enter_maintenance (jlink_reset do_wait_for_replug : Bool)
    (env : MaintEnv) : MaintResult :=
  if jlink_reset && !env.jlink_ok then
    ⟨false, false, true, false, false⟩
  else if !jlink_reset && do_wait_for_replug && !env.replug_ok then
    ⟨false, false, true, false, false⟩
  else if !env.open1_ok then
    ⟨false, false, false, true, false⟩
  else if !env.start1_ok then
    ⟨false, false, true, false, true⟩
  else if !env.open2_ok then
    ⟨false, false, false, true, false⟩
  else if !env.start2_ok then
    ⟨false, false, true, false, true⟩
  else if env.enq_ok && decide (10 ≤ env.enq_data.length)
      && decide (env.enq_data.getD 9 0 ≠ 0) then
    ⟨true, true, false, false, false⟩
  else
    ⟨true, false, true, false, false⟩

/-- A device script for one segment attempt that ACKs the BURN_MRAM
command and every chunk (`[2, 0xFE]` is a well-formed ACK frame). -/
def ack_env : AttemptEnv := ⟨[2, CMD_ACK], fun _ => [2, CMD_ACK], true, true⟩

/-- A device script that ACKs BURN_MRAM, then yields no bytes at all for
the first chunk (a USB drop), with the subsequent reconnect and
start-ISP both succeeding. -/
def drop_env : AttemptEnv := ⟨[2, CMD_ACK], fun _ => [], true, true⟩

/-- A device script that ACKs BURN_MRAM, then yields no bytes for the
first chunk; the reconnect open succeeds but the post-reconnect
start-ISP fails. -/
def drop_fail_env : AttemptEnv := ⟨[2, CMD_ACK], fun _ => [], true, false⟩

/-! ## Basic codec facts -/

theorem make_packet_eq (cmd : Nat) (data : List Nat) (hc : cmd < 256)
    (hl : data.length + 3 < 256) :
    make_packet cmd data =
      some ((data.length + 3) :: cmd :: data ++
        [calc_checksum ((data.length + 3) :: cmd :: data)]) := by
  simp only [make_packet, List.length_cons, hc, if_true]
  have : data.length + 1 + 2 = data.length + 3 := by omega
  rw [this]
  simp [hl]

/-- Unfolding equation for `read_response` on a nonempty stream. -/
theorem read_response_cons (l : Nat) (more : List Nat) :
    read_response (l :: more) =
      if l < 2 then (none, [])
      else
        match more.take (l - 1) with
        | [] => (none, [])
        | cmd :: tail =>
          (some cmd, if tail.length + 1 > 2 then tail.dropLast else []) := rfl

/-- Shared helper: `read_response` yields no command exactly when the
input is empty, the declared length is below 2, or no byte at all
follows the length byte. -/
theorem read_response_none_iff (input : List Nat) :
    (read_response input).1 = none ↔
      input = [] ∨ ∃ l rest, input = l :: rest ∧ (l < 2 ∨ rest = []) := by
  match input with
  | [] => simp [read_response]
  | l :: rest =>
    simp only [read_response]
    by_cases hl : l < 2
    · simp only [hl, if_true, true_iff]
      exact Or.inr ⟨l, rest, rfl, Or.inl hl⟩
    · simp only [hl, if_false]
      match hr : rest.take (l - 1) with
      | [] =>
        simp only [List.take_eq_nil_iff] at hr
        rcases hr with hr | hr
        · omega
        · simp only [hr, true_iff]
          exact Or.inr ⟨l, [], rfl, Or.inr rfl⟩
      | c :: t =>
        have hrest : rest ≠ [] := by
          intro h
          rw [h] at hr
          simp at hr
        constructor
        · intro h
          simp at h
        · rintro (h | ⟨l2, r2, heq, h2 | h2⟩)
          · exact absurd h (by simp)
          · rw [List.cons.injEq] at heq
            omega
          · rw [List.cons.injEq] at heq
            exact absurd (heq.2.trans h2) hrest

/-! ## Facts about the segment writer -/

/-- A chunk response that is neither ACK nor DATA_RESP aborts the loop
with `usb_drop` set exactly when the decoder yielded no command. -/
theorem chunk_loop_abort (responses : Nat → List Nat) (b : Nat)
    (tl : List Nat) (offset n : Nat)
    (h1 : (read_response (responses n)).1 ≠ some CMD_ACK)
    (h2 : (read_response (responses n)).1 ≠ some CMD_DATA_RESP) :
    (chunk_loop responses (b :: tl) offset n).1 =
      ⟨false, ((read_response (responses n)).1).isNone, n, offset⟩ := by
  rw [chunk_loop]
  simp only [h1, h2, or_self, if_false]

/-- Every `_write_segment` call writes BURN_MRAM first, with the
little-endian address and size. -/
theorem write_segment_head (burn_resp : List Nat) (responses : Nat → List Nat)
    (data : List Nat) (addr : Nat) :
    (write_segment burn_resp responses data addr).2.head? =
      some ⟨CMD_BURN_MRAM, packLE32 addr ++ packLE32 data.length⟩ := by
  unfold write_segment
  dsimp only
  split <;> rfl

/-- When BURN_MRAM is accepted and the segment is nonempty, the first
chunk packet carries sequence number 0. -/
theorem write_segment_first_chunk (burn_resp : List Nat)
    (responses : Nat → List Nat) (b : Nat) (tl : List Nat) (addr : Nat)
    (hb : (read_response burn_resp).1 = some CMD_ACK ∨
      (read_response burn_resp).1 = some CMD_DATA_RESP) :
    ∃ rest, (write_segment burn_resp responses (b :: tl) addr).2 =
      ⟨CMD_BURN_MRAM, packLE32 addr ++ packLE32 (b :: tl).length⟩ ::
        ⟨CMD_DOWNLOAD_DATA, packLE16 0 ++ (b :: tl).take DATA_PER_CHUNK⟩ ::
          rest := by
  unfold write_segment
  rw [if_pos hb]
  rw [chunk_loop]
  split
  · exact ⟨_, rfl⟩
  · exact ⟨_, rfl⟩

/-- A failed segment attempt classified as a USB drop, with the
reconnect and start-ISP succeeding, makes `write_image` retry the very
same segment offset next. -/
theorem image_loop_retry_same (data : List Nat) (addr : Nat)
    (a : AttemptEnv) (rest : List AttemptEnv) (off tc : Nat)
    (hoff : off < data.length)
    (hfail : (write_segment a.burn_resp a.chunk_resps
      ((data.drop off).take MAX_SEGMENT_SIZE) (addr + off)).1.success = false)
    (hdrop : (write_segment a.burn_resp a.chunk_resps
      ((data.drop off).take MAX_SEGMENT_SIZE) (addr + off)).1.usb_drop = true)
    (hopen : a.reconnect_open_ok = true)
    (hstart : a.reconnect_start_ok = true) :
    (image_loop data addr (a :: rest) off tc).attempts =
        ⟨off,
          (write_segment a.burn_resp a.chunk_resps
            ((data.drop off).take MAX_SEGMENT_SIZE) (addr + off)).1,
          (write_segment a.burn_resp a.chunk_resps
            ((data.drop off).take MAX_SEGMENT_SIZE) (addr + off)).2⟩ ::
          (image_loop data addr rest off tc).attempts ∧
      (image_loop data addr (a :: rest) off tc).status =
        (image_loop data addr rest off tc).status := by
  rw [image_loop]
  rw [if_pos hoff]
  simp only [hfail, hdrop, hopen, hstart, Bool.not_true, Bool.false_eq_true,
    if_false, if_true]
  simp

/-- A failed segment attempt that is not a USB drop (a decoded non-ACK
response) aborts the whole image write at once, with no retry. -/
theorem image_loop_reject (data : List Nat) (addr : Nat) (a : AttemptEnv)
    (rest : List AttemptEnv) (off tc : Nat)
    (hoff : off < data.length)
    (hfail : (write_segment a.burn_resp a.chunk_resps
      ((data.drop off).take MAX_SEGMENT_SIZE) (addr + off)).1.success = false)
    (hdrop : (write_segment a.burn_resp a.chunk_resps
      ((data.drop off).take MAX_SEGMENT_SIZE) (addr + off)).1.usb_drop = false) :
    image_loop data addr (a :: rest) off tc =
      ⟨.protocolRejected, tc,
        [⟨off,
          (write_segment a.burn_resp a.chunk_resps
            ((data.drop off).take MAX_SEGMENT_SIZE) (addr + off)).1,
          (write_segment a.burn_resp a.chunk_resps
            ((data.drop off).take MAX_SEGMENT_SIZE) (addr + off)).2⟩]⟩ := by
  rw [image_loop]
  rw [if_pos hoff]
  simp only [hfail, hdrop, Bool.false_eq_true, if_false]

/-- After a USB drop, a single failure of the post-reconnect start-ISP
fails the whole image write. -/
theorem image_loop_reconnect_fail (data : List Nat) (addr : Nat)
    (a : AttemptEnv) (rest : List AttemptEnv) (off tc : Nat)
    (hoff : off < data.length)
    (hfail : (write_segment a.burn_resp a.chunk_resps
      ((data.drop off).take MAX_SEGMENT_SIZE) (addr + off)).1.success = false)
    (hdrop : (write_segment a.burn_resp a.chunk_resps
      ((data.drop off).take MAX_SEGMENT_SIZE) (addr + off)).1.usb_drop = true)
    (hopen : a.reconnect_open_ok = true)
    (hstart : a.reconnect_start_ok = false) :
    image_loop data addr (a :: rest) off tc =
      ⟨.reconnectFailed, tc,
        [⟨off,
          (write_segment a.burn_resp a.chunk_resps
            ((data.drop off).take MAX_SEGMENT_SIZE) (addr + off)).1,
          (write_segment a.burn_resp a.chunk_resps
            ((data.drop off).take MAX_SEGMENT_SIZE) (addr + off)).2⟩]⟩ := by
  rw [image_loop]
  rw [if_pos hoff]
  simp only [hfail, hdrop, hopen, hstart, Bool.not_true, Bool.not_false,
    Bool.false_eq_true, if_false, if_true]

/-- The segment loop makes at most one attempt per scripted device
interaction. -/
theorem image_loop_attempts_le (data : List Nat) (addr : Nat) :
    ∀ (env : List AttemptEnv) (off tc : Nat),
      (image_loop data addr env off tc).attempts.length ≤ env.length := by
  intro env
  induction env with
  | nil =>
    intro off tc
    rw [image_loop]
    split
    · simp
    · simp
  | cons a rest ih =>
    intro off tc
    rw [image_loop]
    by_cases hoff : off < data.length
    · rw [if_pos hoff]
      dsimp only
      by_cases hs : (write_segment a.burn_resp a.chunk_resps
          ((data.drop off).take MAX_SEGMENT_SIZE) (addr + off)).1.success = true
      · rw [if_pos hs]
        dsimp only
        simp only [List.length_cons]
        exact Nat.succ_le_succ (ih _ _)
      · rw [if_neg hs]
        by_cases hd : (write_segment a.burn_resp a.chunk_resps
            ((data.drop off).take MAX_SEGMENT_SIZE) (addr + off)).1.usb_drop = true
        · rw [if_pos hd]
          by_cases ho : (!a.reconnect_open_ok) = true
          · rw [if_pos ho]
            simp
          · rw [if_neg ho]
            by_cases hst : (!a.reconnect_start_ok) = true
            · rw [if_pos hst]
              simp
            · rw [if_neg hst]
              dsimp only
              simp only [List.length_cons]
              exact Nat.succ_le_succ (ih _ _)
        · rw [if_neg hd]
          simp
    · rw [if_neg hoff]
      simp

/-- The `for attempt in range(retries)` loops make at most `retries`
attempts. -/
theorem bounded_retry_le (outs : List Bool) (n : Nat) :
    (bounded_retry outs n).2 ≤ n := by
  induction n generalizing outs with
  | zero => rfl
  | succ m ih =>
    rw [bounded_retry]
    split
    · omega
    · simp only
      exact Nat.succ_le_succ (ih outs.tail)

/-- Evaluation of one segment attempt under `drop_env`'s device script:
BURN_MRAM is ACKed, the first chunk times out, the attempt fails as a
USB drop having written nothing. -/
theorem drop_env_seg_eval : write_segment [2, CMD_ACK] (fun _ => []) [0] 0 =
    (⟨false, true, 0, 0⟩,
      [⟨CMD_BURN_MRAM, packLE32 0 ++ packLE32 1⟩,
       ⟨CMD_DOWNLOAD_DATA, packLE16 0 ++ [0]⟩]) := by
  rw [write_segment]
  rw [chunk_loop]
  simp [read_response, CMD_ACK, CMD_DATA_RESP, DATA_PER_CHUNK]

/-- Evaluation of a segment attempt whose chunk response is the single
byte `0x01`: a byte arrived, yet the decoder yields no command and the
failure is classified as a USB drop. -/
theorem malformed_seg_eval :
    (write_segment [2, CMD_ACK] (fun _ => [1]) [0] 0).1 =
      ⟨false, true, 0, 0⟩ := by
  rw [write_segment]
  rw [chunk_loop]
  simp [read_response, CMD_ACK, CMD_DATA_RESP, DATA_PER_CHUNK]

/-- A device that USB-drops every attempt but reconnects successfully
each time drives the segment loop through exactly one attempt per drop:
no fixed bound on retries exists. -/
theorem unbounded_attempts (n : Nat) :
    (image_loop [0] 0 (List.replicate n drop_env) 0 0).attempts.length = n := by
  induction n with
  | zero =>
    simp only [List.replicate_zero]
    rw [image_loop]
    simp
  | succ m ih =>
    rw [List.replicate_succ]
    rw [image_loop]
    rw [if_pos (by norm_num)]
    dsimp only
    have hsd : (([0] : List Nat).drop 0).take MAX_SEGMENT_SIZE = [0] := by
      simp [MAX_SEGMENT_SIZE]
    rw [List.drop_zero] at hsd
    simp only [List.drop_zero, Nat.add_zero, Nat.zero_add, hsd]
    have h1 : drop_env.burn_resp = [2, CMD_ACK] := rfl
    have h2 : drop_env.chunk_resps = fun _ => [] := rfl
    have h3 : drop_env.reconnect_open_ok = true := rfl
    have h4 : drop_env.reconnect_start_ok = true := rfl
    simp only [h1, h2, h3, h4, drop_env_seg_eval]
    simp [ih]

/-! ## Facts about segment partitioning -/

theorem segments_from_nil (off : Nat) : segments_from [] off = [] := by
  rw [segments_from]
  simp

theorem segments_from_eq_nil_iff (d : List Nat) (off : Nat) :
    segments_from d off = [] ↔ d = [] := by
  constructor
  · intro h
    by_contra hne
    rw [segments_from, dif_neg hne] at h
    exact absurd h (by simp)
  · intro h
    subst h
    exact segments_from_nil off

/-- In-order concatenation of the segment slices reconstructs the
partitioned byte string exactly. -/
theorem segments_flatten (d : List Nat) : ∀ off : Nat,
    ((segments_from d off).map Prod.snd).flatten = d := by
  induction d, 0 using segments_from.induct with
  | case1 off => intro o; rw [segments_from_nil]; rfl
  | case2 d off hne ih =>
    intro o
    rw [segments_from, dif_neg hne]
    simp only [List.map_cons, List.flatten_cons]
    rw [ih]
    exact List.take_append_drop _ _

/-- The number of segments is the ceiling of the partitioned length
divided by the 256 KiB cap. -/
theorem segments_count (d : List Nat) : ∀ off : Nat,
    (segments_from d off).length = num_segments d.length := by
  induction d, 0 using segments_from.induct with
  | case1 off =>
    intro o
    rw [segments_from_nil]
    rfl
  | case2 d off hne ih =>
    intro o
    rw [segments_from, dif_neg hne]
    simp only [List.length_cons]
    rw [ih]
    have h1 : 1 ≤ d.length := List.length_pos.mpr hne
    simp only [num_segments, List.length_drop, MAX_SEGMENT_SIZE]
    omega

/-- No segment exceeds the 256 KiB cap. -/
theorem segments_size_le (d : List Nat) : ∀ (off : Nat) (p : Nat × List Nat),
    p ∈ segments_from d off → p.2.length ≤ MAX_SEGMENT_SIZE := by
  induction d, 0 using segments_from.induct with
  | case1 off =>
    intro o p hp
    rw [segments_from_nil] at hp
    exact absurd hp (by simp)
  | case2 d off hne ih =>
    intro o p hp
    rw [segments_from, dif_neg hne] at hp
    rcases List.mem_cons.mp hp with h | h
    · subst h
      simp [List.length_take]
    · exact ih _ _ h

/-- Padding to a 16-byte multiple never changes the segment count,
because the cap is itself a multiple of 16: the ceiling over the padded
length equals the ceiling over the original length. -/
theorem num_segments_pad16 (data : List Nat) :
    num_segments (pad16 data).length =
      (data.length + MAX_SEGMENT_SIZE - 1) / MAX_SEGMENT_SIZE := by
  simp only [num_segments, pad16, List.length_append, List.length_replicate,
    MAX_SEGMENT_SIZE]
  omega

theorem replicate_ne_nil (n : Nat) (hn : n ≠ 0) (a : Nat) :
    List.replicate n a ≠ [] := by
  intro h
  have hl := congrArg List.length h
  rw [List.length_replicate, List.length_nil] at hl
  exact hn hl

/-- A 300 KiB image is already 16-byte aligned, so padding is a no-op. -/
theorem pad16_replicate :
    pad16 (List.replicate 307200 (0 : Nat)) =
      List.replicate 307200 (0 : Nat) := by
  rw [pad16, List.length_replicate]
  norm_num

/-- A 300 KiB image partitions into exactly the two segments
`[0, 262144)` and `[262144, 307200)`. -/
theorem segs_307200 :
    segments_from (List.replicate 307200 (0 : Nat)) 0 =
      [(0, List.replicate 262144 (0 : Nat)),
       (262144, List.replicate 45056 (0 : Nat))] := by
  rw [segments_from, dif_neg (replicate_ne_nil 307200 (by norm_num) 0)]
  rw [List.take_replicate, List.drop_replicate]
  have h1 : MAX_SEGMENT_SIZE ⊓ 307200 = 262144 := by
    rw [MAX_SEGMENT_SIZE]; omega
  have h2 : 307200 - MAX_SEGMENT_SIZE = 45056 := by
    rw [MAX_SEGMENT_SIZE]
  rw [h1, h2, List.length_replicate]
  norm_num
  rw [segments_from, dif_neg (replicate_ne_nil 45056 (by norm_num) 0)]
  rw [List.take_replicate, List.drop_replicate]
  have h3 : MAX_SEGMENT_SIZE ⊓ 45056 = 45056 := by
    rw [MAX_SEGMENT_SIZE]; omega
  have h4 : 45056 - MAX_SEGMENT_SIZE = 0 := by
    rw [MAX_SEGMENT_SIZE]
  rw [h3, h4, List.length_replicate]
  norm_num
  rw [segments_from]
  simp

/-! ## The all-ACK run of the segment writer -/

/-- Against a device that ACKs every chunk, the chunk loop always
completes. -/
theorem chunk_loop_ack : ∀ (remaining : List Nat) (offset n : Nat),
    (chunk_loop (fun _ => [2, CMD_ACK]) remaining offset n).1.success
      = true := by
  intro remaining offset n
  induction remaining, offset, n using chunk_loop.induct (fun _ => [2, CMD_ACK]) with
  | case1 offset n => rw [chunk_loop]
  | case2 offset n cmd tail chunk resp hresp ih =>
    rw [chunk_loop]
    rw [if_pos hresp]
    dsimp only
    exact ih
  | case3 offset n cmd tail resp hresp =>
    exact absurd (Or.inl rfl) hresp

theorem write_segment_ack (data : List Nat) (addr : Nat) :
    (write_segment [2, CMD_ACK] (fun _ => [2, CMD_ACK]) data addr).1.success
      = true := by
  unfold write_segment
  dsimp only
  have hb : (read_response [2, CMD_ACK]).1 = some CMD_ACK ∨
      (read_response [2, CMD_ACK]).1 = some CMD_DATA_RESP := Or.inl rfl
  rw [if_pos hb]
  exact chunk_loop_ack data 0 0

/-- Dropping a whole segment slice advances exactly to the next segment
offset. -/
theorem drop_take_drop (data : List Nat) (off : Nat) :
    List.drop MAX_SEGMENT_SIZE (List.drop off data) =
      List.drop (off + (List.take MAX_SEGMENT_SIZE (List.drop off data)).length)
        data := by
  rw [List.length_take, List.length_drop]
  by_cases hM : data.length ≤ off + MAX_SEGMENT_SIZE
  · rw [List.drop_eq_nil_iff.mpr (by rw [List.length_drop]; omega),
      List.drop_eq_nil_iff.mpr (by omega)]
  · have hmin : MAX_SEGMENT_SIZE ⊓ (data.length - off) = MAX_SEGMENT_SIZE := by
      omega
    rw [hmin, List.drop_drop]

/-- Against an all-ACK device with enough scripted attempts, the segment
loop succeeds and issues exactly one BURN_MRAM per segment, at base
address `addr + offset` with the segment's size. -/
theorem image_loop_ack (data : List Nat) (addr : Nat) : ∀ (n off tc : Nat),
    (segments_from (data.drop off) off).length ≤ n →
    (image_loop data addr (List.replicate n ack_env) off tc).status
        = ImageStatus.ok ∧
      (image_loop data addr (List.replicate n ack_env) off tc).attempts.map
          (fun a => (a.seg_offset, a.cmds.head?)) =
        (segments_from (data.drop off) off).map
          (fun p => (p.1, some (⟨CMD_BURN_MRAM,
            packLE32 (addr + p.1) ++ packLE32 p.2.length⟩ : SentCmd))) := by
  intro n
  induction n with
  | zero =>
    intro off tc hcount
    have hseg : segments_from (data.drop off) off = [] :=
      List.length_eq_zero.mp (Nat.le_zero.mp hcount)
    have hnil : data.drop off = [] := (segments_from_eq_nil_iff _ _).mp hseg
    have hoff : ¬ off < data.length := by
      have := List.drop_eq_nil_iff.mp hnil
      omega
    simp only [List.replicate_zero]
    rw [image_loop, if_neg hoff]
    simp [hseg]
  | succ m ih =>
    intro off tc hcount
    by_cases hoff : off < data.length
    · have hne : data.drop off ≠ [] := by
        intro h
        have := List.drop_eq_nil_iff.mp h
        omega
      rw [List.replicate_succ]
      rw [image_loop, if_pos hoff]
      dsimp only
      have e1 : ack_env.burn_resp = [2, CMD_ACK] := rfl
      have e2 : ack_env.chunk_resps = fun _ => [2, CMD_ACK] := rfl
      rw [e1, e2]
      have hsucc := write_segment_ack
        (List.take MAX_SEGMENT_SIZE (List.drop off data)) (addr + off)
      rw [if_pos hsucc]
      have hA := drop_take_drop data off
      have hcount2 : (segments_from
          (data.drop (off + (List.take MAX_SEGMENT_SIZE
            (List.drop off data)).length))
          (off + (List.take MAX_SEGMENT_SIZE (List.drop off data)).length)).length
          ≤ m := by
        rw [← hA]
        rw [segments_from, dif_neg hne] at hcount
        simpa using Nat.le_of_succ_le_succ hcount
      have hih := ih (off + (List.take MAX_SEGMENT_SIZE (List.drop off data)).length)
        (tc + (write_segment [2, CMD_ACK] (fun _ => [2, CMD_ACK])
          (List.take MAX_SEGMENT_SIZE (List.drop off data)) (addr + off)).1.chunks_written)
        hcount2
      constructor
      · dsimp only
        exact hih.1
      · dsimp only
        simp only [List.map_cons]
        rw [segments_from, dif_neg hne]
        simp only [List.map_cons]
        rw [hA]
        rw [hih.2]
        simp only [write_segment_head]
    · have hnil : data.drop off = [] := by
        rw [List.drop_eq_nil_iff]
        omega
      rw [List.replicate_succ]
      rw [image_loop, if_neg hoff]
      simp [hnil, segments_from_nil]

/-- `write_image` against an all-ACK device: succeeds and issues the
per-segment BURN_MRAM commands with base address `addr + seg_offset`
and the segment's size. -/
theorem write_image_ack (data : List Nat) (addr : Nat) (n : Nat)
    (hcount : (segments_from (pad16 data) 0).length ≤ n) :
    (write_image ⟨true, true, List.replicate n ack_env⟩ data addr).status
        = ImageStatus.ok ∧
      (write_image ⟨true, true, List.replicate n ack_env⟩ data
          addr).attempts.map (fun a => (a.seg_offset, a.cmds.head?)) =
        (segments_from (pad16 data) 0).map
          (fun p => (p.1, some (⟨CMD_BURN_MRAM,
            packLE32 (addr + p.1) ++ packLE32 p.2.length⟩ : SentCmd))) := by
  have h := image_loop_ack (pad16 data) addr n 0 0
    (by rw [List.drop_zero]; exact hcount)
  rw [List.drop_zero] at h
  rw [write_image]
  have e1 : (⟨true, true, List.replicate n ack_env⟩ : WriteImageEnv).open_ok
      = true := rfl
  have e2 : (⟨true, true, List.replicate n ack_env⟩ : WriteImageEnv).start_ok
      = true := rfl
  have e3 : (⟨true, true, List.replicate n ack_env⟩ : WriteImageEnv).attempts
      = List.replicate n ack_env := rfl
  rw [e1, e2, e3]
  simpa using h

/-! ## Claims about the codec -/

/-- Claim C1, counterexample: `make_packet(0x00, b'')` yields the frame
`[3, 0, 253]`, whose first (length) byte is `3`, not
`2 + len(payload) = 2`. -/
theorem claim_C1_cex :
    make_packet CMD_START_ISP [] = some [3, 0, 253] ∧
      (3 : Nat) ≠ 2 + ([] : List Nat).length := by
  decide

/-- Claim C1 (amended): for every command_id and payload accepted by the
encoder, the first (length) byte of the frame equals `3 + len(payload)`:
it counts the command byte, the payload bytes, the checksum byte AND the
length byte itself, i.e. it equals the total frame size. -/
theorem claim_C1 (cmd : Nat) (data pkt : List Nat)
    (h : make_packet cmd data = some pkt) :
    pkt.head? = some (data.length + 3) ∧ pkt.length = data.length + 3 := by
  simp only [make_packet] at h
  split at h
  · split at h
    · rw [Option.some.injEq] at h
      subst h
      simp
    · exact absurd h (by simp)
  · exact absurd h (by simp)

/-- Claim C1 witness: the amended statement at `cmd = 0x08`,
`payload = [1, 2]`. -/
theorem claim_C1_witness :
    ([5, 8, 1, 2, 240] : List Nat).head? = some ([1, 2].length + 3) ∧
      ([5, 8, 1, 2, 240] : List Nat).length = [1, 2].length + 3 :=
  claim_C1 8 [1, 2] [5, 8, 1, 2, 240] (by decide)

/-- Claim C2: for every command byte and payload of at most 250 bytes,
decoding the encoded frame returns exactly the original pair. -/
theorem claim_C2 (cmd : Nat) (data : List Nat) (hc : cmd < 256)
    (hd : ∀ b ∈ data, b < 256) (hl : data.length ≤ 250) :
    ∃ pkt, make_packet cmd data = some pkt ∧
      read_response pkt = (some cmd, data) := by
  have h3 : data.length + 3 < 256 := by omega
  refine ⟨_, make_packet_eq cmd data hc h3, ?_⟩
  simp only [List.cons_append]
  rw [read_response_cons]
  rw [if_neg (by omega)]
  have htake : (cmd :: (data ++
      [calc_checksum ((data.length + 3) :: cmd :: data)])).take
        (data.length + 3 - 1) =
      cmd :: (data ++ [calc_checksum ((data.length + 3) :: cmd :: data)]) := by
    apply List.take_of_length_le
    simp
  rw [htake]
  rcases List.eq_nil_or_concat data with hnil | ⟨as, a, hcons⟩
  · subst hnil
    simp
  · subst hcons
    simp only [List.length_append, List.length_concat, List.length_singleton]
    rw [if_pos (by omega)]
    rw [Prod.mk.injEq]
    exact ⟨rfl, List.dropLast_concat⟩

/-- Claim C2 witness: the round trip at `cmd = 0x0F`,
`payload = [0xDE, 0xAD]`. -/
theorem claim_C2_witness :
    ∃ pkt, make_packet 15 [222, 173] = some pkt ∧
      read_response pkt = (some 15, [222, 173]) :=
  claim_C2 15 [222, 173] (by decide) (by decide) (by decide)

/-- Claim C3: the checksum of the empty sequence is 0, and for every
byte sequence of length 0 through 256 the sum of the bytes plus the
checksum is 0 mod 256 (wrap-around arithmetic, total function). -/
theorem claim_C3 : calc_checksum [] = 0 ∧
    ∀ b : List Nat, b.length ≤ 256 → (b.sum + calc_checksum b) % 256 = 0 := by
  constructor
  · decide
  · intro b _
    unfold calc_checksum
    omega

/-- Claim C3 witness: the checksum law at the two-byte sequence
`[7, 250]`. -/
theorem claim_C3_witness :
    (([7, 250] : List Nat).sum + calc_checksum [7, 250]) % 256 = 0 :=
  claim_C3.2 [7, 250] (by decide)

/-- Claim C5, counterexample: on the stream `[5, 0xFE]` the declared
length is 5 but only one byte follows before the timeout; the claim says
the decoder returns `(None, b'')`, yet the code returns
`(0xFE, b'')` — a truncated frame with at least one continuation byte is
decoded liberally, not rejected. -/
theorem claim_C5_cex :
    read_response [5, 254] = (some 254, []) ∧
      read_response [5, 254] ≠ ((none : Option Nat), ([] : List Nat)) := by
  decide

/-- Claim C5 (amended): `read_response` reads exactly one length byte
first, and returns `(None, b'')` exactly when the input is empty, the
length byte is below 2, or no byte at all follows the length byte before
the timeout; whenever it yields no command it also yields an empty
payload; it never raises (it is a total function). A truncated frame
with at least one byte after the length byte is decoded from the bytes
that did arrive rather than rejected. -/
theorem claim_C5 : read_response [] = (none, []) ∧
    (∀ input : List Nat, (read_response input).1 = none ↔
       input = [] ∨ ∃ l rest, input = l :: rest ∧ (l < 2 ∨ rest = [])) ∧
    (∀ input : List Nat,
       (read_response input).1 = none → read_response input = (none, [])) := by
  refine ⟨rfl, read_response_none_iff, ?_⟩
  intro input h
  match input with
  | [] => rfl
  | l :: rest =>
    rw [read_response_cons] at h ⊢
    by_cases hl : l < 2
    · rw [if_pos hl]
    · rw [if_neg hl] at h ⊢
      cases hr : rest.take (l - 1) with
      | nil => rfl
      | cons c t => rw [hr] at h; simp at h

/-- Claim C5 witness: the amended statement applied at the single-byte
stream `[1]` (length byte below 2). -/
theorem claim_C5_witness : read_response [1] = (none, []) :=
  claim_C5.2.2 [1] (by decide)

/-- Claim C10: the decoder never validates the checksum: two received
streams that are identical except in the final (checksum) byte of the
frame (position `L - 1` for a declared length `L ≥ 3`) decode to exactly
the same `(command_id, payload)` pair. -/
theorem claim_C10 (L : Nat) (pre post : List Nat) (c1 c2 : Nat)
    (hL : 3 ≤ L) (hpre : pre.length = L - 2) :
    read_response (L :: pre ++ c1 :: post) =
      read_response (L :: pre ++ c2 :: post) := by
  obtain ⟨p, ps, rfl⟩ : ∃ p ps, pre = p :: ps := by
    cases pre with
    | nil => simp at hpre; omega
    | cons p ps => exact ⟨p, ps, rfl⟩
  have htake : ∀ c : Nat, ((p :: ps) ++ c :: post).take (L - 1) =
      (p :: ps) ++ [c] := by
    intro c
    have h1 : L - 1 = (p :: ps).length + 1 := by
      simp at hpre ⊢
      omega
    rw [h1, List.take_append_eq_append_take]
    simp
  simp only [List.cons_append]
  rw [read_response_cons, read_response_cons]
  rw [if_neg (by omega), if_neg (by omega)]
  have htake1 := htake c1
  have htake2 := htake c2
  simp only [List.cons_append] at htake1 htake2
  rw [htake1, htake2]
  simp only [List.length_append, List.length_singleton, List.dropLast_concat]

/-- Claim C10 witness: the streams `[4, 0xFE, 0xAB, 0x00]` and
`[4, 0xFE, 0xAB, 0x63]` (correct vs corrupted checksum) decode
identically. -/
theorem claim_C10_witness :
    read_response [4, 254, 171, 0] = read_response [4, 254, 171, 99] :=
  claim_C10 4 [254, 171] [] 0 99 (by decide) (by decide)

/-! ## Claims about the segment writer, retries and maintenance entry -/

/-- Claim C4, counterexample: a chunk response consisting of the single
byte `0x01` is a received response (bytes did arrive within the
timeout), yet the failure is classified as a USB drop
(`usb_drop = true`), so "USB drop exactly when no response bytes at all
arrived" is false on the code. -/
theorem claim_C4_cex :
    (write_segment [2, CMD_ACK] (fun _ => [1]) [0] 0).1.success = false ∧
      (write_segment [2, CMD_ACK] (fun _ => [1]) [0] 0).1.usb_drop = true ∧
      ([1] : List Nat) ≠ [] := by
  refine ⟨?_, ?_, by simp⟩
  · rw [malformed_seg_eval]
  · rw [malformed_seg_eval]

/-- Claim C4 (amended): in the chunk-streaming loop, any chunk response
other than ACK (0xFE) or DATA_RESP (0xFD) aborts the segment; the
failure is classified as a USB drop exactly when the decoder yields no
command — which happens when the response is empty, its length byte is
below 2, or no byte follows the length byte — and as a protocol
rejection when a decodable frame with a different command code arrived;
every segment attempt re-sends BURN_MRAM first with chunk numbering
restarting at 0; on a USB drop with a working reconnect, `write_image`
retries the very same segment offset; on a protocol rejection it aborts
immediately with no retry. -/
theorem claim_C4 :
    (∀ (responses : Nat → List Nat) (b : Nat) (tl : List Nat)
        (offset n : Nat),
      (read_response (responses n)).1 ≠ some CMD_ACK →
      (read_response (responses n)).1 ≠ some CMD_DATA_RESP →
      (chunk_loop responses (b :: tl) offset n).1 =
        ⟨false, ((read_response (responses n)).1).isNone, n, offset⟩) ∧
    (∀ s : List Nat, (read_response s).1 = none ↔
      s = [] ∨ ∃ l rest, s = l :: rest ∧ (l < 2 ∨ rest = [])) ∧
    (∀ (burn_resp : List Nat) (responses : Nat → List Nat)
        (data : List Nat) (addr : Nat),
      (write_segment burn_resp responses data addr).2.head? =
        some ⟨CMD_BURN_MRAM, packLE32 addr ++ packLE32 data.length⟩) ∧
    (∀ (burn_resp : List Nat) (responses : Nat → List Nat) (b : Nat)
        (tl : List Nat) (addr : Nat),
      (read_response burn_resp).1 = some CMD_ACK ∨
        (read_response burn_resp).1 = some CMD_DATA_RESP →
      ∃ rest, (write_segment burn_resp responses (b :: tl) addr).2 =
        ⟨CMD_BURN_MRAM, packLE32 addr ++ packLE32 (b :: tl).length⟩ ::
          ⟨CMD_DOWNLOAD_DATA, packLE16 0 ++ (b :: tl).take DATA_PER_CHUNK⟩ ::
            rest) ∧
    (∀ (data : List Nat) (addr : Nat) (a : AttemptEnv)
        (rest : List AttemptEnv) (off tc : Nat),
      off < data.length →
      (write_segment a.burn_resp a.chunk_resps
        ((data.drop off).take MAX_SEGMENT_SIZE) (addr + off)).1.success
          = false →
      (write_segment a.burn_resp a.chunk_resps
        ((data.drop off).take MAX_SEGMENT_SIZE) (addr + off)).1.usb_drop
          = true →
      a.reconnect_open_ok = true → a.reconnect_start_ok = true →
      (image_loop data addr (a :: rest) off tc).attempts =
          ⟨off,
            (write_segment a.burn_resp a.chunk_resps
              ((data.drop off).take MAX_SEGMENT_SIZE) (addr + off)).1,
            (write_segment a.burn_resp a.chunk_resps
              ((data.drop off).take MAX_SEGMENT_SIZE) (addr + off)).2⟩ ::
            (image_loop data addr rest off tc).attempts ∧
        (image_loop data addr (a :: rest) off tc).status =
          (image_loop data addr rest off tc).status) ∧
    (∀ (data : List Nat) (addr : Nat) (a : AttemptEnv)
        (rest : List AttemptEnv) (off tc : Nat),
      off < data.length →
      (write_segment a.burn_resp a.chunk_resps
        ((data.drop off).take MAX_SEGMENT_SIZE) (addr + off)).1.success
          = false →
      (write_segment a.burn_resp a.chunk_resps
        ((data.drop off).take MAX_SEGMENT_SIZE) (addr + off)).1.usb_drop
          = false →
      image_loop data addr (a :: rest) off tc =
        ⟨.protocolRejected, tc,
          [⟨off,
            (write_segment a.burn_resp a.chunk_resps
              ((data.drop off).take MAX_SEGMENT_SIZE) (addr + off)).1,
            (write_segment a.burn_resp a.chunk_resps
              ((data.drop off).take MAX_SEGMENT_SIZE) (addr + off)).2⟩]⟩) :=
  ⟨chunk_loop_abort, read_response_none_iff, write_segment_head,
    write_segment_first_chunk, image_loop_retry_same, image_loop_reject⟩

/-- Claim C4 witness: the retry conjunct at the one-byte image `[0]`
with a drop-then-successful-reconnect script: the loop retries the same
segment offset 0. -/
theorem claim_C4_witness :
    (image_loop [0] 0 [drop_env, drop_env] 0 0).attempts =
        ⟨0,
          (write_segment drop_env.burn_resp drop_env.chunk_resps
            ((([0] : List Nat).drop 0).take MAX_SEGMENT_SIZE) (0 + 0)).1,
          (write_segment drop_env.burn_resp drop_env.chunk_resps
            ((([0] : List Nat).drop 0).take MAX_SEGMENT_SIZE) (0 + 0)).2⟩ ::
          (image_loop [0] 0 [drop_env] 0 0).attempts ∧
      (image_loop [0] 0 [drop_env, drop_env] 0 0).status =
        (image_loop [0] 0 [drop_env] 0 0).status := by
  have hsd : (([0] : List Nat).drop 0).take MAX_SEGMENT_SIZE = [0] := by
    simp [MAX_SEGMENT_SIZE]
  have e1 : drop_env.burn_resp = [2, CMD_ACK] := rfl
  have e2 : drop_env.chunk_resps = fun _ => [] := rfl
  refine claim_C4.2.2.2.2.1 [0] 0 drop_env [drop_env] 0 0 (by norm_num)
    ?_ ?_ rfl rfl
  · simp only [e1, e2, hsd, Nat.add_zero, drop_env_seg_eval]
  · simp only [e1, e2, hsd, Nat.add_zero, drop_env_seg_eval]

/-- Claim C6, counterexample: no fixed bound exists on the number of
segment attempts `write_image` makes — for every candidate bound there
is a device behavior (repeated USB drops with successful reconnects)
that exceeds it, so the USB-drop segment-retry loop is not bounded. -/
theorem claim_C6_cex : ¬ ∃ B : Nat, ∀ env : List AttemptEnv,
    (image_loop [0] 0 env 0 0).attempts.length ≤ B := by
  rintro ⟨B, hB⟩
  have h := hB (List.replicate (B + 1) drop_env)
  rw [unbounded_attempts] at h
  omega

/-- Claim C6 (amended): the transport-open and start-ISP retry loops
are bounded by their `retries` argument; the segment loop makes at most
one attempt per device interaction and a single (first, not second)
failure of the post-reconnect start-ISP fails the whole image write;
but the USB-drop segment retry count is not bounded by any fixed
number: a device that keeps dropping and reconnecting drives it through
`n` attempts of the same segment for every `n`. -/
theorem claim_C6 :
    (∀ (outcomes : List Bool) (retries : Nat),
      (bounded_retry outcomes retries).2 ≤ retries) ∧
    (∀ (data : List Nat) (addr : Nat) (env : List AttemptEnv) (off tc : Nat),
      (image_loop data addr env off tc).attempts.length ≤ env.length) ∧
    (∀ (data : List Nat) (addr : Nat) (a : AttemptEnv)
        (rest : List AttemptEnv) (off tc : Nat),
      off < data.length →
      (write_segment a.burn_resp a.chunk_resps
        ((data.drop off).take MAX_SEGMENT_SIZE) (addr + off)).1.success
          = false →
      (write_segment a.burn_resp a.chunk_resps
        ((data.drop off).take MAX_SEGMENT_SIZE) (addr + off)).1.usb_drop
          = true →
      a.reconnect_open_ok = true → a.reconnect_start_ok = false →
      image_loop data addr (a :: rest) off tc =
        ⟨.reconnectFailed, tc,
          [⟨off,
            (write_segment a.burn_resp a.chunk_resps
              ((data.drop off).take MAX_SEGMENT_SIZE) (addr + off)).1,
            (write_segment a.burn_resp a.chunk_resps
              ((data.drop off).take MAX_SEGMENT_SIZE) (addr + off)).2⟩]⟩) ∧
    (∀ n : Nat,
      (image_loop [0] 0 (List.replicate n drop_env) 0 0).attempts.length
        = n) :=
  ⟨bounded_retry_le, image_loop_attempts_le, image_loop_reconnect_fail,
    unbounded_attempts⟩

/-- Claim C6 witness: a USB drop followed by one failed start-ISP after
reconnect fails the whole image write at once. -/
theorem claim_C6_witness :
    image_loop [0] 0 [drop_fail_env] 0 0 =
      ⟨.reconnectFailed, 0,
        [⟨0,
          (write_segment drop_fail_env.burn_resp drop_fail_env.chunk_resps
            ((([0] : List Nat).drop 0).take MAX_SEGMENT_SIZE) (0 + 0)).1,
          (write_segment drop_fail_env.burn_resp drop_fail_env.chunk_resps
            ((([0] : List Nat).drop 0).take MAX_SEGMENT_SIZE) (0 + 0)).2⟩]⟩ := by
  have hsd : (([0] : List Nat).drop 0).take MAX_SEGMENT_SIZE = [0] := by
    simp [MAX_SEGMENT_SIZE]
  have e1 : drop_fail_env.burn_resp = [2, CMD_ACK] := rfl
  have e2 : drop_fail_env.chunk_resps = fun _ => [] := rfl
  refine claim_C6.2.2.1 [0] 0 drop_fail_env [] 0 0 (by norm_num)
    ?_ ?_ rfl rfl
  · simp only [e1, e2, hsd, Nat.add_zero, drop_env_seg_eval]
  · simp only [e1, e2, hsd, Nat.add_zero, drop_env_seg_eval]

/-- Claim C7: the bug evaluated at its failing input.  A device that
lets `open_serial` succeed but never ACKs START_ISP makes
`enter_maintenance` return a failure result (`success = False`) while
the serial port is still open: the early `return` inside the `try` is
not covered by the `except`-only close, so the transport leaks. -/
theorem claim_C7 :
    (enter_maintenance false false
        ⟨true, true, true, false, true, true, true, []⟩).success = false ∧
      (enter_maintenance false false
        ⟨true, true, true, false, true, true, true, []⟩).port_open = true := by
  decide

/-- Claim C8: once the post-reset reconnect and start-ISP succeed, a
falsy maintenance flag (for instance an enquiry payload of 10 zero
bytes), a short payload, or a failed enquiry still yields
`success = True` with `maintenance_mode = False` and an explanatory
message — never a failure. -/
theorem claim_C8 (env : MaintEnv)
    (h1 : env.open1_ok = true) (h2 : env.start1_ok = true)
    (h3 : env.open2_ok = true) (h4 : env.start2_ok = true)
    (h5 : env.enq_ok = false ∨ env.enq_data.length < 10 ∨
      env.enq_data.getD 9 0 = 0) :
    enter_maintenance false false env = ⟨true, false, true, false, false⟩ := by
  obtain ⟨ja, ra, o1, s1, o2, s2, eq, ed⟩ := env
  simp only at h1 h2 h3 h4 h5
  subst h1 h2 h3 h4
  unfold enter_maintenance
  simp only [Bool.false_and, Bool.not_true, Bool.and_false, Bool.false_eq_true,
    if_false, Bool.not_false]
  rcases h5 with h | h | h
  · subst h
    simp
  · simp [Nat.not_le.mpr h]
  · have h9 : ed[9]?.getD 0 = 0 := by simpa [List.getD] using h
    simp [h9]

/-- Claim C8 witness: the exact Scenario-D input, an enquiry response of
ten zero bytes. -/
theorem claim_C8_witness :
    enter_maintenance false false
        ⟨true, true, true, true, true, true, true, List.replicate 10 0⟩ =
      ⟨true, false, true, false, false⟩ :=
  claim_C8 _ rfl rfl rfl rfl (Or.inr (Or.inr (by decide)))

/-- Claim C9, counterexample: for a 1-byte image the concatenation of
the segments is the 16-byte zero-padded image, not the original
pre-padding byte string. -/
theorem claim_C9_cex :
    ((segments_from (pad16 [171]) 0).map Prod.snd).flatten = pad16 [171] ∧
      pad16 [171] ≠ [171] :=
  ⟨segments_flatten _ 0, by decide⟩

/-- Claim C9 (amended): `write_image` partitions the padded image into
`ceil(N/262144)` segments (`N` the original length — padding never
changes the count since the cap is a multiple of 16) of at most 262144
bytes whose in-order concatenation reconstructs the PADDED image
(original bytes followed by the zero padding to a 16-byte multiple);
each segment's BURN_MRAM command carries base address = image address +
segment offset and the segment's size; a 300 KiB image at 0x80300000
yields exactly two segments with burn commands at 0x80300000 (size
262144) and 0x80340000 (size 45056). -/
theorem claim_C9 :
    (∀ data : List Nat,
      ((segments_from (pad16 data) 0).map Prod.snd).flatten =
        data ++ List.replicate ((16 - data.length % 16) % 16) 0) ∧
    (∀ data : List Nat, (segments_from (pad16 data) 0).length =
      (data.length + MAX_SEGMENT_SIZE - 1) / MAX_SEGMENT_SIZE) ∧
    (∀ (d : List Nat) (off : Nat) (p : Nat × List Nat),
      p ∈ segments_from d off → p.2.length ≤ MAX_SEGMENT_SIZE) ∧
    (∀ (data : List Nat) (addr n : Nat),
      (segments_from (pad16 data) 0).length ≤ n →
      (write_image ⟨true, true, List.replicate n ack_env⟩ data addr).status
          = ImageStatus.ok ∧
        (write_image ⟨true, true, List.replicate n ack_env⟩ data
            addr).attempts.map (fun a => (a.seg_offset, a.cmds.head?)) =
          (segments_from (pad16 data) 0).map
            (fun p => (p.1, some (⟨CMD_BURN_MRAM,
              packLE32 (addr + p.1) ++ packLE32 p.2.length⟩ : SentCmd)))) ∧
    ((write_image ⟨true, true, List.replicate 2 ack_env⟩
        (List.replicate 307200 0) 0x80300000).status = ImageStatus.ok ∧
      (write_image ⟨true, true, List.replicate 2 ack_env⟩
          (List.replicate 307200 0) 0x80300000).attempts.map
          (fun a => (a.seg_offset, a.cmds.head?)) =
        [(0, some ⟨CMD_BURN_MRAM, packLE32 0x80300000 ++ packLE32 262144⟩),
         (262144, some ⟨CMD_BURN_MRAM,
           packLE32 0x80340000 ++ packLE32 45056⟩)]) := by
  refine ⟨?_, ?_, segments_size_le, write_image_ack, ?_⟩
  · intro data
    rw [segments_flatten]
    rfl
  · intro data
    rw [segments_count, num_segments_pad16]
  · have h := write_image_ack (List.replicate 307200 0) 0x80300000 2
      (by rw [pad16_replicate, segs_307200]; norm_num)
    rw [pad16_replicate, segs_307200] at h
    refine ⟨h.1, ?_⟩
    rw [h.2]
    norm_num

/-- Claim C9 witness: the all-ACK conjunct at the 1-byte image `[5]`
written to address 7 with one scripted attempt. -/
theorem claim_C9_witness :
    (write_image ⟨true, true, List.replicate 1 ack_env⟩ [5] 7).status
        = ImageStatus.ok ∧
      (write_image ⟨true, true, List.replicate 1 ack_env⟩ [5] 7).attempts.map
          (fun a => (a.seg_offset, a.cmds.head?)) =
        (segments_from (pad16 [5]) 0).map
          (fun p => (p.1, some (⟨CMD_BURN_MRAM,
            packLE32 (7 + p.1) ++ packLE32 p.2.length⟩ : SentCmd))) :=
  claim_C9.2.2.2.1 [5] 7 1
    (by rw [segments_count, num_segments_pad16, MAX_SEGMENT_SIZE]; norm_num)

end AlifIsp
